import Mathlib

/-!
Verification of the kpatch-dnf plugin (src/kpatch.py) against its
natural-language specification.

Strings are embedded as `List Char`.  Python's `re`, `configparser`,
file-system and dnf-transaction interactions are embedded as explicit
data (association lists, records); fallible operations return `Option`
or `Except`.  Host (dnf/hawkey) query primitives that the plugin merely
calls into — and that the spec declares out of scope — are either kept
abstract (the `latest` selection) or modelled by their documented
behaviour where indicated.
-/

namespace Kpatch

/-! ## Naming Resolver (`_kpp_name_from_kernel_pkg`, src/kpatch.py:60-64) -/

/-- The literal characters of the `\.el` part of the regex
`(.*)\.el.*` used in `_kpp_name_from_kernel_pkg`. -/
def dotEl : List Char := ['.', 'e', 'l']

/-- Python `s.replace(".", "_")`: every dot becomes an underscore. -/
def replaceDots (s : List Char) : List Char :=
  s.map (fun c => if c = '.' then '_' else c)

/-- Group 1 of `re.match(r"(.*)\.el.*", s)`.

The leading `(.*)` is greedy, so the regex engine captures the longest
prefix of `s` that is immediately followed by the literal `.el`;
equivalently, everything before the *last* occurrence of the substring
`.el`.  `re.match` returns `None` (and the source then crashes on
`.group(1)`) when `.el` does not occur, modelled here as `none`. -/
def grp1 : List Char → Option (List Char)
  | [] => none
  | c :: rest =>
    match grp1 rest with
    | some p => some (c :: p)
    | none => if dotEl.isPrefixOf (c :: rest) then some [] else none

/-- `_kpp_name_from_kernel_pkg`, as a function of the kernel package's
version and release strings.  `none` models the unguarded match
failure (`AttributeError` on `None.group`). -/
def kppName (version release : List Char) : Option (List Char) :=
  (grp1 release).map (fun r =>
    "kpatch-patch-".toList ++ replaceDots version ++ '-' :: replaceDots r)

/-- The regex match step succeeds exactly when `.el` occurs in the string. -/
theorem grp1_isSome_iff (s : List Char) : (grp1 s).isSome = true ↔ dotEl <:+: s := by
  induction s with
  | nil => simp [grp1, List.infix_nil, dotEl]
  | cons c t ih =>
    cases hgt : grp1 t with
    | some p =>
      simp only [grp1, hgt, Option.isSome_some, true_iff]
      exact List.infix_cons (ih.mp (by simp [hgt]))
    | none =>
      have ht : ¬ dotEl <:+: t := by
        rw [← ih]
        simp [hgt]
      by_cases hp : dotEl.isPrefixOf (c :: t) = true
      · simp only [grp1, hgt, hp, if_true, Option.isSome_some, true_iff]
        exact List.infix_cons_iff.mpr (Or.inl (List.isPrefixOf_iff_prefix.mp hp))
      · simp only [grp1, hgt, hp, if_false, Option.isSome_none, false_iff,
          Bool.false_eq_true]
        rw [List.infix_cons_iff]
        rintro (h | h)
        · exact hp (List.isPrefixOf_iff_prefix.mpr h)
        · exact ht h

/-- One-step unfolding of `grp1` at a cons cell. -/
theorem grp1_cons (c : Char) (rest : List Char) :
    grp1 (c :: rest) =
      match grp1 rest with
      | some p => some (c :: p)
      | none => if dotEl.isPrefixOf (c :: rest) then some [] else none := rfl

/-- The greedy group: if `.el` does not occur in `y`, then on the string
`x ++ ".el" ++ y` the captured group is exactly `x`. -/
theorem grp1_append (x y : List Char) (hy : ¬ dotEl <:+: y) :
    grp1 (x ++ (dotEl ++ y)) = some x := by
  induction x with
  | nil =>
    have hel : ¬ dotEl <:+: ('e' :: 'l' :: y) := by
      rw [List.infix_cons_iff, List.infix_cons_iff]
      rintro (h | h | h)
      · exact absurd (List.cons_prefix_cons.mp h).1 (by decide)
      · exact absurd (List.cons_prefix_cons.mp h).1 (by decide)
      · exact hy h
    have h2 : grp1 ('e' :: 'l' :: y) = none := by
      cases h : grp1 ('e' :: 'l' :: y) with
      | none => rfl
      | some p => exact absurd ((grp1_isSome_iff _).mp (by simp [h])) hel
    have h3 : dotEl.isPrefixOf ('.' :: 'e' :: 'l' :: y) = true := by
      simp [dotEl, List.isPrefixOf]
    show grp1 ('.' :: 'e' :: 'l' :: y) = some []
    rw [grp1_cons, h2, if_pos h3]
  | cons c x' ih =>
    show grp1 (c :: (x' ++ (dotEl ++ y))) = some (c :: x')
    rw [grp1_cons, ih]

/-- Claim C1: for every kernel package whose release matches
`<X>.el<Y>` (with `X` the greedy group, i.e. `.el` does not occur
again in `Y`) and whose version is `V`, the Naming Resolver returns
exactly `kpatch-patch-<V'>-<X'>` where `V'` and `X'` replace every
dot by an underscore. -/
theorem kpp_name_formula (v x y : List Char) (hy : ¬ dotEl <:+: y) :
    kppName v (x ++ (dotEl ++ y)) =
      some ("kpatch-patch-".toList ++ replaceDots v ++ '-' :: replaceDots x) := by
  unfold kppName
  rw [grp1_append x y hy]
  rfl

/-- Witness for C1, Scenario A: version `5.14.0`, release
`70.13.1.el9_0` gives `kpatch-patch-5_14_0-70_13_1`. -/
theorem kpp_name_formula_witness :
    kppName "5.14.0".toList ("70.13.1".toList ++ (dotEl ++ "9_0".toList)) =
      some "kpatch-patch-5_14_0-70_13_1".toList :=
  (kpp_name_formula "5.14.0".toList "70.13.1".toList "9_0".toList
    (by decide)).trans (by decide)

/-- Claim C6: the Naming Resolver's match step succeeds exactly for
release strings containing a `.el` distribution suffix; for a release
lacking it the resolver produces no name (the unguarded match
failure, the spec's MalformedRelease condition). -/
theorem kpp_match_iff_suffix (v r : List Char) :
    (kppName v r).isSome = true ↔ dotEl <:+: r := by
  rw [← grp1_isSome_iff]
  unfold kppName
  cases grp1 r <;> simp

/-! ## Packages and transaction items -/

/-- A dnf package as far as the plugin reads it: name, version,
release, architecture, whether it is installed (vs. available), and
its requires/provides reldep lists in their string form (the source
only ever inspects `str(require)`). -/
structure Pkg where
  name : List Char
  version : List Char
  release : List Char
  arch : List Char
  installed : Bool
  requires : List (List Char)
  provides : List (List Char)
deriving DecidableEq

/-- `_kpp_name_from_kernel_pkg` applied to a package. -/
def kppNameOfPkg (p : Pkg) : Option (List Char) :=
  kppName p.version p.release

/-- `KERNEL_PKG_NAME = "kernel-core"` (src/kpatch.py:48). -/
def KERNEL_PKG_NAME : List Char := "kernel-core".toList

/-- One transaction item: whether its action is in
`dnf.transaction.FORWARD_ACTIONS`, and its package.  (Items not linked
to a package only occur with non-forward actions; the source checks
the action before touching `tr_item.pkg`.) -/
structure TrItem where
  forward : Bool
  pkg : Pkg
deriving DecidableEq

/-- An install request submitted to the host's goal/selector by
`_install_kpp_pkg` (src/kpatch.py:67-73): the patch package name, the
kernel's architecture the query is filtered on, and the
`optional=not dnf_base.conf.strict` flag.  Which concrete package
versions the selector picks (`latest()`) is host behaviour. -/
structure InstallReq where
  name : List Char
  arch : List Char
  optional : Bool
deriving DecidableEq

/-- `_install_kpp_pkg`: compute the patch name (crashing — `none` — on a
malformed release) and submit the install request. -/
def installKppPkg (strict : Bool) (kernelPkg : Pkg) : Option InstallReq :=
  (kppNameOfPkg kernelPkg).map (fun n => ⟨n, kernelPkg.arch, !strict⟩)

/-- `_install_kpp_pkg` over a list of kernel packages, in order; the
whole run crashes (`none`) if any name computation fails. -/
def installAll (strict : Bool) : List Pkg → Option (List InstallReq)
  | [] => some []
  | p :: rest =>
    match installKppPkg strict p with
    | none => none
    | some r => (installAll strict rest).map (fun rs => r :: rs)

/-! ## The `resolved` hook (src/kpatch.py:323-348) -/

/-- The scan loop of `resolved`: first component collects the packages
of forward items named `kernel-core` (`need_kpp_for`), second collects
the names of forward items starting with `kpatch-patch-`
(`explicit_kpp_install`), both in transaction order. -/
def scanTrans : List TrItem → List Pkg × List (List Char)
  | [] => ([], [])
  | t :: rest =>
    let s := scanTrans rest
    if t.forward then
      if t.pkg.name = KERNEL_PKG_NAME then (t.pkg :: s.1, s.2)
      else if "kpatch-patch-".toList.isPrefixOf t.pkg.name then (s.1, t.pkg.name :: s.2)
      else s
    else s

/-- The list comprehension at src/kpatch.py:342-343: drop every kernel
package whose computed patch name is already explicitly requested;
`none` models the crash when a name computation fails. -/
def filterNeed : List Pkg → List (List Char) → Option (List Pkg)
  | [], _ => some []
  | p :: rest, expl =>
    match kppNameOfPkg p with
    | none => none
    | some n =>
      match filterNeed rest expl with
      | none => none
      | some r => some (if n ∈ expl then r else p :: r)

/-- One invocation of the `resolved` callback, as a function of the
plugin state (`_autoupdate`, `_commiting`), the host's strict flag and
the computed transaction.  Returns the install requests submitted and
whether `_commit_changes` (a host re-resolve) is triggered; `none`
models a crash in the naming resolver. -/
def resolvedRun (autoupdate commiting strict : Bool) (trans : List TrItem) :
    Option (List InstallReq × Bool) :=
  if !autoupdate || commiting then some ([], false)
  else
    match filterNeed (scanTrans trans).1 (scanTrans trans).2 with
    | none => none
    | some remaining =>
      match installAll strict remaining with
      | none => none
      | some reqs => some (reqs, !remaining.isEmpty)

/-- An original (non-re-entrant) `resolved` invocation together with
the recursive invocation that its `_commit_changes` re-resolve causes:
`_commit_changes` sets `_commiting`, calls `self.base.resolve(...)`
— which runs `resolved` again, with the guard set, on the newly
computed transaction `innerTrans` — and clears the guard
(src/kpatch.py:274-278).  The second component counts how many host
re-resolves the whole invocation requests. -/
def hookExec (autoupdate strict : Bool) (trans innerTrans : List TrItem) :
    Option (List InstallReq × Nat) :=
  match resolvedRun autoupdate false strict trans with
  | none => none
  | some (reqs, trigger) =>
    if trigger then
      match resolvedRun autoupdate true strict innerTrans with
      | none => none
      | some (reqs2, trigger2) =>
        some (reqs ++ reqs2, 1 + (if trigger2 then 1 else 0))
    else some (reqs, 0)

/-- With the reentrancy guard set, `resolved` is a no-op. -/
theorem resolvedRun_guarded (autoupdate strict : Bool) (trans : List TrItem) :
    resolvedRun autoupdate true strict trans = some ([], false) := by
  simp [resolvedRun]

/-- Every package surviving `filterNeed` has a patch name that is not
among the explicitly requested ones. -/
theorem filterNeed_mem (l : List Pkg) (expl : List (List Char)) (r : List Pkg)
    (h : filterNeed l expl = some r) :
    ∀ p ∈ r, ∃ n, kppNameOfPkg p = some n ∧ ¬ n ∈ expl := by
  induction l generalizing r with
  | nil =>
    simp only [filterNeed, Option.some.injEq] at h
    subst h
    simp
  | cons q rest ih =>
    simp only [filterNeed] at h
    cases hk : kppNameOfPkg q with
    | none => rw [hk] at h; exact absurd h (by simp)
    | some n =>
      rw [hk] at h
      cases hr : filterNeed rest expl with
      | none => rw [hr] at h; exact absurd h (by simp)
      | some r' =>
        rw [hr] at h
        simp only [Option.some.injEq] at h
        subst h
        by_cases hmem : n ∈ expl
        · rw [if_pos hmem]
          exact ih r' hr
        · rw [if_neg hmem]
          intro p hp
          rcases List.mem_cons.mp hp with rfl | hp'
          · exact ⟨n, hk, hmem⟩
          · exact ih r' hr p hp'

/-- If every kernel package is covered by an explicit request,
`filterNeed` drops them all. -/
theorem filterNeed_all_covered (l : List Pkg) (expl : List (List Char))
    (h : ∀ p ∈ l, ∃ n, kppNameOfPkg p = some n ∧ n ∈ expl) :
    filterNeed l expl = some [] := by
  induction l with
  | nil => rfl
  | cons q rest ih =>
    obtain ⟨n, hn, hmem⟩ := h q (List.mem_cons_self q rest)
    simp only [filterNeed, hn, ih (fun p hp => h p (List.mem_cons_of_mem q hp)),
      if_pos hmem]

/-- Every submitted request comes from some kernel package in the input
list, via `_install_kpp_pkg`. -/
theorem installAll_mem (strict : Bool) (l : List Pkg) (reqs : List InstallReq)
    (h : installAll strict l = some reqs) :
    ∀ q ∈ reqs, ∃ p ∈ l, installKppPkg strict p = some q := by
  induction l generalizing reqs with
  | nil =>
    simp only [installAll, Option.some.injEq] at h
    subst h
    simp
  | cons p rest ih =>
    simp only [installAll] at h
    cases hk : installKppPkg strict p with
    | none => rw [hk] at h; exact absurd h (by simp)
    | some r =>
      rw [hk] at h
      cases hr : installAll strict rest with
      | none => rw [hr] at h; exact absurd h (by simp)
      | some rs =>
        rw [hr] at h
        simp only [Option.map, Option.some.injEq] at h
        subst h
        intro q hq
        rcases List.mem_cons.mp hq with rfl | hq'
        · exact ⟨p, List.mem_cons_self p rest, hk⟩
        · obtain ⟨p', hp', hp2⟩ := ih rs hr q hq'
          exact ⟨p', List.mem_cons_of_mem p hp', hp2⟩

/-- Claim C2: in `resolved` (autoupdate on, original resolution), no
install request is issued for any patch package name the user already
explicitly requested, and if every kernel item in the transaction is
covered by an explicit request then no request at all is issued and no
re-resolve is triggered. -/
theorem resolved_no_duplicate_requests (strict : Bool) (trans : List TrItem)
    (reqs : List InstallReq) (again : Bool)
    (h : resolvedRun true false strict trans = some (reqs, again)) :
    (∀ n ∈ (scanTrans trans).2, ∀ q ∈ reqs, q.name ≠ n) ∧
    ((∀ p ∈ (scanTrans trans).1, ∃ n, kppNameOfPkg p = some n ∧ n ∈ (scanTrans trans).2) →
      reqs = [] ∧ again = false) := by
  have hh : (match filterNeed (scanTrans trans).1 (scanTrans trans).2 with
      | none => (none : Option (List InstallReq × Bool))
      | some remaining =>
        match installAll strict remaining with
        | none => none
        | some rs => some (rs, !remaining.isEmpty)) = some (reqs, again) := by
    simpa [resolvedRun] using h
  split at hh
  next => exact absurd hh (by simp)
  next remaining hf =>
    split at hh
    next => exact absurd hh (by simp)
    next rs hi =>
      simp only [Option.some.injEq, Prod.mk.injEq] at hh
      obtain ⟨rfl, rfl⟩ := hh
      constructor
      · intro n hn q hq
        obtain ⟨p, hp, hpq⟩ := installAll_mem strict remaining rs hi q hq
        obtain ⟨m, hm, hmem⟩ := filterNeed_mem _ _ _ hf p hp
        have hqn : q.name = m := by
          simp only [installKppPkg, hm, Option.map, Option.some.injEq] at hpq
          rw [← hpq]
        rw [hqn]
        intro hcon
        exact hmem (hcon ▸ hn)
      · intro hcov
        have hempty := filterNeed_all_covered _ _ hcov
        rw [hempty] at hf
        obtain rfl : remaining = [] := by
          simpa using hf.symm
        obtain rfl : rs = [] := by
          simpa [installAll] using hi.symm
        simp

/-- A concrete kernel-core package (Scenario D's kernel A). -/
def kernelA : Pkg :=
  ⟨"kernel-core".toList, "5.14.0".toList, "70.13.1.el9_0".toList,
    "x86_64".toList, false, [], []⟩

/-- A transaction that installs `kernelA` and explicitly installs its
patch package `kpatch-patch-5_14_0-70_13_1`. -/
def transD : List TrItem :=
  [⟨true, kernelA⟩,
   ⟨true, ⟨"kpatch-patch-5_14_0-70_13_1".toList, "1".toList, "1.el9".toList,
     "x86_64".toList, false, [], []⟩⟩]

/-- Witness for C2, Scenario D: on `transD` the hook issues no request
and triggers no re-resolve. -/
theorem resolved_no_duplicate_requests_witness :
    ([] : List InstallReq) = [] ∧ (false : Bool) = false :=
  (resolved_no_duplicate_requests false transD [] false (by decide)).2
    (by
      have hs : (scanTrans transD).1 = [kernelA] := by decide
      intro p hp
      rw [hs] at hp
      have hp' : p = kernelA := by simpa using hp
      subst hp'
      exact ⟨"kpatch-patch-5_14_0-70_13_1".toList, by decide, by decide⟩)

/-- Claim C3: an original (non-re-entrant) `resolved` invocation asks
the host to re-resolve at most once, however many kernel packages need
patches, and the recursive invocation caused by that re-resolve is a
no-op because the reentrancy guard is set. -/
theorem resolved_single_reresolve (autoupdate strict : Bool)
    (trans innerTrans : List TrItem) (reqs : List InstallReq) (n : Nat)
    (h : hookExec autoupdate strict trans innerTrans = some (reqs, n)) :
    n ≤ 1 ∧ resolvedRun autoupdate true strict innerTrans = some ([], false) := by
  refine ⟨?_, resolvedRun_guarded autoupdate strict innerTrans⟩
  unfold hookExec at h
  cases h0 : resolvedRun autoupdate false strict trans with
  | none => rw [h0] at h; exact absurd h (by simp)
  | some pr =>
    rw [h0] at h
    obtain ⟨r0, trigger⟩ := pr
    cases trigger with
    | false =>
      have h' : some (r0, 0) = some (reqs, n) := by simpa using h
      have h2 : (0 : Nat) = n := congrArg (fun pr => pr.2) (Option.some.inj h')
      omega
    | true =>
      rw [resolvedRun_guarded] at h
      have h' : some (r0 ++ [], 1 + 0) = some (reqs, n) := by simpa using h
      have h2 : (1 + 0 : Nat) = n := congrArg (fun pr => pr.2) (Option.some.inj h')
      omega

/-- A transaction installing two kernel-core versions with no explicit
patch requests. -/
def transTwoKernels : List TrItem :=
  [⟨true, kernelA⟩,
   ⟨true, ⟨"kernel-core".toList, "5.14.0".toList, "70.17.1.el9_0".toList,
     "x86_64".toList, false, [], []⟩⟩]

/-- Witness for C3: on a transaction needing two patches the hook
re-resolves exactly once, and the guarded inner invocation is a no-op. -/
theorem resolved_single_reresolve_witness :
    (1 : Nat) ≤ 1 ∧ resolvedRun true true false [] = some ([], false) :=
  resolved_single_reresolve true false transTwoKernels []
    [⟨"kpatch-patch-5_14_0-70_13_1".toList, "x86_64".toList, true⟩,
     ⟨"kpatch-patch-5_14_0-70_17_1".toList, "x86_64".toList, true⟩] 1
    (by decide)

/-! ## Persisted configuration (`configparser` as the plugin uses it) -/

/-- Parsed configuration: sections in file order, each a name with its
key/value pairs in order.  (`configparser` rejects duplicate sections,
and every lookup below reads the first match, so duplicates are inert.) -/
abbrev Config : Type := List (List Char × List (List Char × List Char))

/-- Key lookup inside one section (`parser.get`-style). -/
def getKV : List (List Char × List Char) → List Char → Option (List Char)
  | [], _ => none
  | kv :: rest, k => if kv.1 = k then some kv.2 else getKV rest k

/-- `parser.set` inside one section: update the first binding of the
key in place, or append a new binding. -/
def setKVs : List (List Char × List Char) → List Char → List Char →
    List (List Char × List Char)
  | [], k, v => [(k, v)]
  | kv :: rest, k, v => if kv.1 = k then (k, v) :: rest else kv :: setKVs rest k v

/-- `parser.has_section`. -/
def hasSection : Config → List Char → Bool
  | [], _ => false
  | sec :: rest, s => decide (sec.1 = s) || hasSection rest s

/-- Value of a key in a section; `none` when section or key is absent. -/
def getOpt : Config → List Char → List Char → Option (List Char)
  | [], _, _ => none
  | sec :: rest, s, k => if sec.1 = s then getKV sec.2 k else getOpt rest s k

/-- `parser.has_option`. -/
def hasOption (c : Config) (s k : List Char) : Bool :=
  (getOpt c s k).isSome

/-- `parser.set('s', k, v)` on a parser whose section `s` exists. -/
def confSet : Config → List Char → List Char → List Char → Config
  | [], _, _, _ => []
  | sec :: rest, s, k, v =>
    if sec.1 = s then (s, setKVs sec.2 k v) :: rest else sec :: confSet rest s k v

/-- `KPATCH_PLUGIN_NAME`-related constants (src/kpatch.py:44-46). -/
def KPATCH_UPDATE_OPT : List Char := "autoupdate".toList

/-- `KPATCH_FILTER_OPT = "autofilter"`. -/
def KPATCH_FILTER_OPT : List Char := "autofilter".toList

/-- The single `main` section name. -/
def mainSec : List Char := "main".toList

/-- The body of `_update_plugin_cfg` acting on a parsed configuration
(src/kpatch.py:177-179): add the `main` section if missing, then set
the option. -/
def updateCfg (c : Config) (opt val : List Char) : Config :=
  confSet (if hasSection c mainSec then c else c ++ [(mainSec, [])]) mainSec opt val

/-- Python `str(True)` / `str(False)`, the values actually written. -/
def trueStr : List Char := "True".toList

/-- The string written for `False`. -/
def falseStr : List Char := "False".toList

/-- `configparser`'s boolean reading (`getboolean`): the lower-cased
value must be one of the eight recognized literals, otherwise a
`ValueError` is raised (`none`). -/
def str2bool (v : List Char) : Option Bool :=
  if v.map Char.toLower ∈ ["1".toList, "yes".toList, "true".toList, "on".toList]
  then some true
  else if v.map Char.toLower ∈ ["0".toList, "no".toList, "false".toList, "off".toList]
  then some false
  else none

/-! ## Configuration files on disk -/

/-- A file either fails to parse (`configparser` raises) or parses to a
configuration.  The embedding stores parsed content; serialization
(`conf.write`) round-trips through `parser.read`. -/
inductive FileData where
  | malformed : FileData
  | parsed : Config → FileData
deriving DecidableEq

/-- The file system as the plugin sees it: existing paths with their
content. -/
abbrev FS : Type := List (List Char × FileData)

/-- Content of a path, `none` when the file does not exist. -/
def fsLookup : FS → List Char → Option FileData
  | [], _ => none
  | e :: rest, f => if e.1 = f then some e.2 else fsLookup rest f

/-- Writing a path: replace existing content or create the file. -/
def fsWrite : FS → List Char → FileData → FS
  | [], f, d => [(f, d)]
  | e :: rest, f, d => if e.1 = f then (f, d) :: rest else e :: fsWrite rest f d

/-- `'%s/%s.conf' % (path, KPATCH_PLUGIN_NAME)`. -/
def confPath (p : List Char) : List Char :=
  p ++ '/' :: "kpatch.conf".toList

/-- `_get_plugin_cfg_file` (src/kpatch.py:52-57): the first candidate
on the plugin-config search path that exists as a file, else `None`. -/
def getPluginCfgFile (fs : FS) (paths : List (List Char)) : Option (List Char) :=
  (paths.map confPath).find? (fun f => (fsLookup fs f).isSome)

/-- Errors a `kpatch` command run can end with. -/
inductive CmdErr where
  | invalidArgument : CmdErr
  | configError : CmdErr
  | uncaught : CmdErr
deriving DecidableEq

/-- `KpatchCmd._read_conf` (src/kpatch.py:156-165): no config file is a
logged warning returning `None`; an unparseable file raises a fatal
`dnf.exceptions.Error`; `parser.read` on a path that vanished yields an
empty parser. -/
def readConf (fs : FS) (cfgFile : Option (List Char)) : Except CmdErr (Option Config) :=
  match cfgFile with
  | none => Except.ok none
  | some f =>
    match fsLookup fs f with
    | some FileData.malformed => Except.error CmdErr.configError
    | some (FileData.parsed c) => Except.ok (some c)
    | none => Except.ok (some [])

/-- `KpatchCmd._update_plugin_cfg` (src/kpatch.py:168-185): skip (with
a warning) when no config file was found, re-read, set the option in
the `main` section, rewrite the file. -/
def updatePluginCfg (fs : FS) (paths : List (List Char)) (opt val : List Char) :
    Except CmdErr FS :=
  match getPluginCfgFile fs paths with
  | none => Except.ok fs
  | some f =>
    match readConf fs (some f) with
    | Except.error e => Except.error e
    | Except.ok none => Except.ok fs
    | Except.ok (some c) => Except.ok (fsWrite fs f (FileData.parsed (updateCfg c opt val)))

/-! ### Lemmas about the configuration store -/

/-- Setting the same key to the same value twice is the same as once. -/
theorem setKVs_idem (l : List (List Char × List Char)) (k v : List Char) :
    setKVs (setKVs l k v) k v = setKVs l k v := by
  induction l with
  | nil => simp [setKVs]
  | cons kv rest ih =>
    by_cases hk : kv.1 = k
    · simp [setKVs, hk]
    · simp [setKVs, hk, ih]

/-- `confSet` does not change which sections exist. -/
theorem hasSection_confSet (c : Config) (s k v s' : List Char) :
    hasSection (confSet c s k v) s' = hasSection c s' := by
  induction c with
  | nil => rfl
  | cons sec rest ih =>
    by_cases hs : sec.1 = s
    · simp [confSet, hasSection, hs, ih]
    · simp [confSet, hasSection, hs, ih]

/-- Setting the same key of the same section to the same value twice. -/
theorem confSet_idem (c : Config) (s k v : List Char) :
    confSet (confSet c s k v) s k v = confSet c s k v := by
  induction c with
  | nil => rfl
  | cons sec rest ih =>
    by_cases hs : sec.1 = s
    · simp [confSet, hs, setKVs_idem]
    · simp [confSet, hs, ih]

/-- Appending a fresh `main` section makes `has_section('main')` true. -/
theorem hasSection_append_main (c : Config) :
    hasSection (c ++ [(mainSec, [])]) mainSec = true := by
  induction c with
  | nil => simp [hasSection]
  | cons sec rest ih => simp [hasSection, ih]

/-- The ensure-`main`-then-set update is idempotent on parsed configs. -/
theorem updateCfg_idem (c : Config) (opt val : List Char) :
    updateCfg (updateCfg c opt val) opt val = updateCfg c opt val := by
  unfold updateCfg
  by_cases hm : hasSection c mainSec = true
  · rw [if_pos hm, if_pos (by rw [hasSection_confSet]; exact hm), confSet_idem]
  · rw [if_neg hm,
      if_pos (by rw [hasSection_confSet]; exact hasSection_append_main c), confSet_idem]

/-- Reading after writing a path. -/
theorem fsLookup_fsWrite (fs : FS) (f g : List Char) (d : FileData) :
    fsLookup (fsWrite fs f d) g = if f = g then some d else fsLookup fs g := by
  induction fs with
  | nil => rfl
  | cons e rest ih =>
    show fsLookup (if e.1 = f then (f, d) :: rest else e :: fsWrite rest f d) g = _
    by_cases he : e.1 = f
    · rw [if_pos he]
      show (if f = g then some d else fsLookup rest g) = _
      by_cases hg : f = g
      · rw [if_pos hg, if_pos hg]
      · rw [if_neg hg, if_neg hg]
        show fsLookup rest g = if e.1 = g then some e.2 else fsLookup rest g
        rw [if_neg (fun h => hg (he.symm.trans h))]
    · rw [if_neg he]
      show (if e.1 = g then some e.2 else fsLookup (fsWrite rest f d) g) = _
      by_cases hg : e.1 = g
      · have hfg : ¬ f = g := fun h => he (hg.trans h.symm)
        rw [if_pos hg, if_neg hfg]
        show some e.2 = if e.1 = g then some e.2 else fsLookup rest g
        rw [if_pos hg]
      · rw [if_neg hg, ih]
        by_cases hfg : f = g
        · rw [if_pos hfg, if_pos hfg]
        · rw [if_neg hfg, if_neg hfg]
          show fsLookup rest g = if e.1 = g then some e.2 else fsLookup rest g
          rw [if_neg hg]

/-- Writing the same path twice keeps only the last write. -/
theorem fsWrite_fsWrite (fs : FS) (f : List Char) (d d' : FileData) :
    fsWrite (fsWrite fs f d) f d' = fsWrite fs f d' := by
  induction fs with
  | nil => simp [fsWrite]
  | cons e rest ih =>
    by_cases he : e.1 = f
    · simp [fsWrite, he]
    · simp [fsWrite, he, ih]

/-- `find?` only depends on the predicate's values on the list. -/
theorem find?_congr_on {α : Type} (p q : α → Bool) (l : List α)
    (h : ∀ x ∈ l, p x = q x) : l.find? p = l.find? q := by
  induction l with
  | nil => rfl
  | cons a rest ih =>
    rw [List.find?_cons, List.find?_cons, h a (List.mem_cons_self a rest),
      ih (fun x hx => h x (List.mem_cons_of_mem a hx))]

/-- Rewriting an existing file does not change which config file the
plugin locates. -/
theorem getPluginCfgFile_fsWrite (fs : FS) (paths : List (List Char))
    (f : List Char) (d : FileData) (hf : (fsLookup fs f).isSome = true) :
    getPluginCfgFile (fsWrite fs f d) paths = getPluginCfgFile fs paths := by
  unfold getPluginCfgFile
  apply find?_congr_on
  intro g _
  rw [fsLookup_fsWrite]
  by_cases hg : f = g
  · rw [if_pos hg, ← hg, hf]
    rfl
  · rw [if_neg hg]

/-- `_update_plugin_cfg` with no located config file: skipped. -/
theorem updatePluginCfg_none (fs : FS) (paths : List (List Char)) (opt val : List Char)
    (h : getPluginCfgFile fs paths = none) :
    updatePluginCfg fs paths opt val = Except.ok fs := by
  unfold updatePluginCfg
  rw [h]

/-- `_update_plugin_cfg` with a located config file, unfolded one step. -/
theorem updatePluginCfg_located (fs : FS) (paths : List (List Char)) (opt val f : List Char)
    (h : getPluginCfgFile fs paths = some f) :
    updatePluginCfg fs paths opt val =
      match readConf fs (some f) with
      | Except.error e => Except.error e
      | Except.ok none => Except.ok fs
      | Except.ok (some c) =>
        Except.ok (fsWrite fs f (FileData.parsed (updateCfg c opt val))) := by
  unfold updatePluginCfg
  rw [h]

/-- `_read_conf` on an existing path, unfolded one step. -/
theorem readConf_lookup (fs : FS) (f : List Char) :
    readConf fs (some f) =
      match fsLookup fs f with
      | some FileData.malformed => Except.error CmdErr.configError
      | some (FileData.parsed c) => Except.ok (some c)
      | none => Except.ok (some []) := rfl

/-- Claim C9: updating a flag to the same value twice is idempotent on
the persisted configuration — composing `_update_plugin_cfg` with
itself (in the `Except` monad) equals a single call. -/
theorem update_cfg_idempotent (fs : FS) (paths : List (List Char)) (opt val : List Char) :
    (updatePluginCfg fs paths opt val).bind (fun fs2 => updatePluginCfg fs2 paths opt val) =
      updatePluginCfg fs paths opt val := by
  cases hloc : getPluginCfgFile fs paths with
  | none =>
    have h1 := updatePluginCfg_none fs paths opt val hloc
    rw [h1]
    show updatePluginCfg fs paths opt val = Except.ok fs
    exact h1
  | some f =>
    have hex : (fsLookup fs f).isSome = true := by
      have := List.find?_some hloc
      simpa using this
    cases hdat : fsLookup fs f with
    | none => rw [hdat] at hex; simp at hex
    | some d =>
      cases d with
      | malformed =>
        have h1 : updatePluginCfg fs paths opt val = Except.error CmdErr.configError := by
          rw [updatePluginCfg_located fs paths opt val f hloc, readConf_lookup, hdat]
        rw [h1]
        rfl
      | parsed c =>
        have h1 : updatePluginCfg fs paths opt val =
            Except.ok (fsWrite fs f (FileData.parsed (updateCfg c opt val))) := by
          rw [updatePluginCfg_located fs paths opt val f hloc, readConf_lookup, hdat]
        rw [h1]
        show updatePluginCfg (fsWrite fs f (FileData.parsed (updateCfg c opt val)))
            paths opt val = _
        have hloc2 : getPluginCfgFile (fsWrite fs f (FileData.parsed (updateCfg c opt val)))
            paths = some f := by
          rw [getPluginCfgFile_fsWrite fs paths f _ hex]
          exact hloc
        rw [updatePluginCfg_located _ paths opt val f hloc2, readConf_lookup,
          fsLookup_fsWrite, if_pos rfl]
        show Except.ok (fsWrite (fsWrite fs f (FileData.parsed (updateCfg c opt val))) f
            (FileData.parsed (updateCfg (updateCfg c opt val) opt val))) = _
        rw [updateCfg_idem, fsWrite_fsWrite]

/-- Lookup after `setKVs`: only the written key changes. -/
theorem getKV_setKVs (l : List (List Char × List Char)) (k v q : List Char) :
    getKV (setKVs l k v) q = if q = k then some v else getKV l q := by
  induction l with
  | nil =>
    show (if k = q then some v else none) = _
    by_cases hq : q = k
    · rw [if_pos hq.symm, if_pos hq]
    · rw [if_neg (fun h => hq h.symm), if_neg hq]
      rfl
  | cons kv rest ih =>
    show getKV (if kv.1 = k then (k, v) :: rest else kv :: setKVs rest k v) q = _
    by_cases hk : kv.1 = k
    · rw [if_pos hk]
      show (if k = q then some v else getKV rest q) = _
      by_cases hq : q = k
      · rw [if_pos hq.symm, if_pos hq]
      · rw [if_neg (fun h => hq h.symm), if_neg hq]
        show getKV rest q = if kv.1 = q then some kv.2 else getKV rest q
        rw [if_neg (fun h => hq (h.symm.trans hk))]
    · rw [if_neg hk]
      show (if kv.1 = q then some kv.2 else getKV (setKVs rest k v) q) = _
      by_cases hq : kv.1 = q
      · have hqk : ¬ q = k := fun h => hk (hq.trans h)
        rw [if_pos hq, if_neg hqk]
        show some kv.2 = if kv.1 = q then some kv.2 else getKV rest q
        rw [if_pos hq]
      · rw [if_neg hq, ih]
        by_cases hqk : q = k
        · rw [if_pos hqk, if_pos hqk]
        · rw [if_neg hqk, if_neg hqk]
          show getKV rest q = if kv.1 = q then some kv.2 else getKV rest q
          rw [if_neg hq]

/-- Lookup after `confSet` on an existing section: only the one key of
the one section changes. -/
theorem getOpt_confSet (c : Config) (s k v : List Char)
    (hc : hasSection c s = true) (s' k' : List Char) :
    getOpt (confSet c s k v) s' k' =
      if s' = s ∧ k' = k then some v else getOpt c s' k' := by
  induction c with
  | nil => simp [hasSection] at hc
  | cons sec rest ih =>
    show getOpt (if sec.1 = s then (s, setKVs sec.2 k v) :: rest else sec :: confSet rest s k v) s' k' = _
    by_cases hs : sec.1 = s
    · rw [if_pos hs]
      show (if s = s' then getKV (setKVs sec.2 k v) k' else getOpt rest s' k') = _
      by_cases hs' : s' = s
      · rw [if_pos hs'.symm, getKV_setKVs]
        by_cases hk' : k' = k
        · rw [if_pos hk', if_pos ⟨hs', hk'⟩]
        · rw [if_neg hk', if_neg (fun h => hk' h.2)]
          show getKV sec.2 k' = getOpt (sec :: rest) s' k'
          show getKV sec.2 k' = if sec.1 = s' then getKV sec.2 k' else getOpt rest s' k'
          rw [if_pos (hs.trans hs'.symm)]
      · rw [if_neg (fun h => hs' h.symm), if_neg (fun h => hs' h.1)]
        show getOpt rest s' k' = if sec.1 = s' then getKV sec.2 k' else getOpt rest s' k'
        rw [if_neg (fun h => hs' (hs.symm.trans h).symm)]
    · rw [if_neg hs]
      show (if sec.1 = s' then getKV sec.2 k' else getOpt (confSet rest s k v) s' k') = _
      have hc' : hasSection rest s = true := by
        have : (decide (sec.1 = s) || hasSection rest s) = true := hc
        simpa [hs] using this
      by_cases hsec : sec.1 = s'
      · have hn : ¬ (s' = s ∧ k' = k) := fun h => hs (hsec.trans h.1)
        rw [if_pos hsec, if_neg hn]
        show getKV sec.2 k' = if sec.1 = s' then getKV sec.2 k' else getOpt rest s' k'
        rw [if_pos hsec]
      · rw [if_neg hsec, ih hc']
        by_cases hcond : s' = s ∧ k' = k
        · rw [if_pos hcond, if_pos hcond]
        · rw [if_neg hcond, if_neg hcond]
          show getOpt rest s' k' = if sec.1 = s' then getKV sec.2 k' else getOpt rest s' k'
          rw [if_neg hsec]

/-- Appending a fresh empty `main` section changes no lookup result. -/
theorem getOpt_append_main (c : Config) (s k : List Char) :
    getOpt (c ++ [(mainSec, [])]) s k = getOpt c s k := by
  induction c with
  | nil =>
    show (if mainSec = s then getKV [] k else none) = none
    by_cases hs : mainSec = s
    · rw [if_pos hs]
      rfl
    · rw [if_neg hs]
  | cons sec rest ih =>
    show (if sec.1 = s then getKV sec.2 k else getOpt (rest ++ [(mainSec, [])]) s k) = _
    by_cases hs : sec.1 = s
    · rw [if_pos hs]
      show _ = if sec.1 = s then getKV sec.2 k else getOpt rest s k
      rw [if_pos hs]
    · rw [if_neg hs, ih]
      show getOpt rest s k = if sec.1 = s then getKV sec.2 k else getOpt rest s k
      rw [if_neg hs]

/-- Lookup after `_update_plugin_cfg`'s in-memory edit: exactly the one
key of the `main` section gets the new value, all else is unchanged. -/
theorem getOpt_updateCfg (c : Config) (opt val s k : List Char) :
    getOpt (updateCfg c opt val) s k =
      if s = mainSec ∧ k = opt then some val else getOpt c s k := by
  unfold updateCfg
  by_cases hm : hasSection c mainSec = true
  · rw [if_pos hm, getOpt_confSet c mainSec opt val hm]
  · rw [if_neg hm, getOpt_confSet _ mainSec opt val (hasSection_append_main c),
      getOpt_append_main]

/-- Frame property of `_update_plugin_cfg`, shared by several results:
only the one written key of the `main` section of the located file
changes. -/
theorem updatePluginCfg_frame_aux (fs : FS) (paths : List (List Char)) (opt val : List Char)
    (fs2 : FS) (h : updatePluginCfg fs paths opt val = Except.ok fs2) :
    (∀ g, getPluginCfgFile fs paths ≠ some g → fsLookup fs2 g = fsLookup fs g) ∧
    (∀ f c, getPluginCfgFile fs paths = some f →
      fsLookup fs f = some (FileData.parsed c) →
      ∃ c2, fsLookup fs2 f = some (FileData.parsed c2) ∧
        getOpt c2 mainSec opt = some val ∧
        (∀ s k, ¬ (s = mainSec ∧ k = opt) → getOpt c2 s k = getOpt c s k)) := by
  cases hloc : getPluginCfgFile fs paths with
  | none =>
    rw [updatePluginCfg_none fs paths opt val hloc] at h
    obtain rfl : fs = fs2 := by
      simpa using h
    exact ⟨fun g _ => rfl, fun f c hf _ => absurd hf (by simp)⟩
  | some f0 =>
    cases hdat : fsLookup fs f0 with
    | none =>
      have hex : (fsLookup fs f0).isSome = true := by
        have := List.find?_some hloc
        simpa using this
      rw [hdat] at hex
      simp at hex
    | some d =>
      cases d with
      | malformed =>
        rw [updatePluginCfg_located fs paths opt val f0 hloc, readConf_lookup, hdat] at h
        have h2 : (Except.error CmdErr.configError : Except CmdErr FS) = Except.ok fs2 := h
        exact Except.noConfusion h2
      | parsed c0 =>
        rw [updatePluginCfg_located fs paths opt val f0 hloc, readConf_lookup, hdat] at h
        have h2 : Except.ok (fsWrite fs f0 (FileData.parsed (updateCfg c0 opt val))) =
            Except.ok fs2 := h
        obtain rfl : fsWrite fs f0 (FileData.parsed (updateCfg c0 opt val)) = fs2 :=
          Except.ok.inj h2
        constructor
        · intro g hg
          have hfg : ¬ f0 = g := fun hc => hg (by rw [hc])
          rw [fsLookup_fsWrite, if_neg hfg]
        · intro f c hf hc
          obtain rfl : f0 = f := by
            simpa using hf
          obtain rfl : c0 = c := by
            have := hdat.symm.trans hc
            simpa using this
          refine ⟨updateCfg c0 opt val, ?_, ?_, ?_⟩
          · rw [fsLookup_fsWrite, if_pos rfl]
          · rw [getOpt_updateCfg, if_pos ⟨rfl, rfl⟩]
          · intro s k hn
            rw [getOpt_updateCfg, if_neg hn]

/-- Claim C10: `_update_plugin_cfg` changes at most the one written key
of the `main` section of the located config file: every other file is
untouched, and in the rewritten file every other section and key keeps
its previous value. -/
theorem update_cfg_frame (fs : FS) (paths : List (List Char)) (opt val : List Char)
    (fs2 : FS) (h : updatePluginCfg fs paths opt val = Except.ok fs2) :
    (∀ g, getPluginCfgFile fs paths ≠ some g → fsLookup fs2 g = fsLookup fs g) ∧
    (∀ f c, getPluginCfgFile fs paths = some f →
      fsLookup fs f = some (FileData.parsed c) →
      ∃ c2, fsLookup fs2 f = some (FileData.parsed c2) ∧
        getOpt c2 mainSec opt = some val ∧
        (∀ s k, ¬ (s = mainSec ∧ k = opt) → getOpt c2 s k = getOpt c s k)) :=
  updatePluginCfg_frame_aux fs paths opt val fs2 h

/-- A concrete config file holding only `autofilter = True`. -/
def c10 : Config := [(mainSec, [(KPATCH_FILTER_OPT, trueStr)])]

/-- That file under the standard plugin-config path. -/
def f10 : List Char := confPath "/etc/dnf/plugins".toList

/-- A one-file file system for the frame witness. -/
def fs10 : FS := [(f10, FileData.parsed c10)]

/-- `fs10` after `kpatch auto-update`'s config write. -/
def fs10after : FS :=
  [(f10, FileData.parsed
    [(mainSec, [(KPATCH_FILTER_OPT, trueStr), (KPATCH_UPDATE_OPT, trueStr)])])]

/-- Witness for C10: setting `autoupdate` on `fs10` leaves
`autofilter` (and everything else) unchanged. -/
theorem update_cfg_frame_witness :
    ∃ c2, fsLookup fs10after f10 = some (FileData.parsed c2) ∧
      getOpt c2 mainSec KPATCH_UPDATE_OPT = some trueStr ∧
      (∀ s k, ¬ (s = mainSec ∧ k = KPATCH_UPDATE_OPT) →
        getOpt c2 s k = getOpt c10 s k) :=
  (update_cfg_frame fs10 ["/etc/dnf/plugins".toList] KPATCH_UPDATE_OPT trueStr
    fs10after (by rfl)).2 f10 c10 (by decide) (by decide)

/-! ## The `kpatch` command (`KpatchCmd`, src/kpatch.py:76-235) -/

/-- The boolean test the plugin and the `status` action perform on a
parsed config: `has_section('main') and has_option('main', k) and
getboolean('main', k)`; `none` models the `ValueError` that
`getboolean` raises on an unrecognized value. -/
def flagExpr (c : Config) (k : List Char) : Option Bool :=
  if hasSection c mainSec && hasOption c mainSec k then
    match getOpt c mainSec k with
    | some v => str2bool v
    | none => some false
  else some false

/-- The same test guarded by `conf is not None` (src/kpatch.py:214,221). -/
def statusBool (conf : Option Config) (k : List Char) : Option Bool :=
  match conf with
  | none => some false
  | some c => flagExpr c k

/-- Host context a command run sees: the plugin-config search path, the
package sack, the `strict` configuration flag, and the host's
`latest()` query primitive (hawkey's evr-ordering selection, external
to this plugin and kept abstract). -/
structure CmdCtx where
  paths : List (List Char)
  sack : List Pkg
  strict : Bool
  latest : List Pkg → List Pkg

/-- `self.base.sack.query().installed().filter(name=KERNEL_PKG_NAME)`. -/
def installedKernels (ctx : CmdCtx) : List Pkg :=
  ctx.sack.filter (fun p => p.installed && decide (p.name = KERNEL_PKG_NAME))

/-- The loop body of `_list_missing_kpp_pkgs` (src/kpatch.py:123-144)
for one installed kernel: `none` models the naming-resolver crash. -/
def missingForKernel (ctx : CmdCtx) (k : Pkg) : Option (List Pkg) :=
  match kppNameOfPkg k with
  | none => none
  | some n =>
    match ctx.sack.filter (fun p => p.installed && decide (p.name = n)) with
    | [] =>
      some (ctx.latest (ctx.sack.filter
        (fun p => decide (p.name = n) && decide (p.arch = k.arch))))
    | i0 :: _ =>
      some ((ctx.latest (ctx.sack.filter
        (fun p => decide (p.name = n) && decide (p.arch = k.arch)))).filter
          (fun p => decide (¬ p ∈ ctx.sack.filter (fun q =>
            decide (q.name = n) && decide (q.release = i0.release) &&
              decide (q.version = i0.version)))))

/-- `_list_missing_kpp_pkgs` over the installed kernels, in order. -/
def collectMissing (ctx : CmdCtx) : List Pkg → Option (List Pkg)
  | [] => some []
  | k :: rest =>
    match missingForKernel ctx k with
    | none => none
    | some ms => (collectMissing ctx rest).map (fun r => ms ++ r)

/-- `_list_missing_kpp_pkgs` (src/kpatch.py:118-146). -/
def listMissingKppPkgs (ctx : CmdCtx) : Option (List Pkg) :=
  collectMissing ctx (installedKernels ctx)

/-- Outcome of a successful command run: the file system after any
config write, and the install requests submitted to the host goal. -/
structure CmdResult where
  fs : FS
  installs : List InstallReq
deriving DecidableEq

/-- The eight actions `KpatchCmd.run` recognizes (src/kpatch.py:194-235). -/
def recognizedActions : List (List Char) :=
  ["auto-update".toList, "manual-update".toList, "auto-filter".toList,
   "no-filter".toList, "install".toList, "status".toList,
   "auto".toList, "manual".toList]

/-- `KpatchCmd.run` (src/kpatch.py:188-235).  `Except.error` collects
the fatal outcomes: the explicit `dnf.exceptions.Error` raises
(`invalidArgument` for an unrecognized action, `configError` from
`_read_conf`/`_update_plugin_cfg`) and `uncaught` for exceptions the
source does not guard (naming-resolver `AttributeError`, `getboolean`
`ValueError`). -/
def runCmd (action : List Char) (ctx : CmdCtx) (fs : FS) : Except CmdErr CmdResult :=
  if action = "auto-update".toList ∨ action = "auto".toList then
    match installAll ctx.strict (installedKernels ctx) with
    | none => Except.error CmdErr.uncaught
    | some reqs =>
      match updatePluginCfg fs ctx.paths KPATCH_UPDATE_OPT trueStr with
      | Except.error e => Except.error e
      | Except.ok fs2 => Except.ok ⟨fs2, reqs⟩
  else if action = "manual-update".toList ∨ action = "manual".toList then
    match updatePluginCfg fs ctx.paths KPATCH_UPDATE_OPT falseStr with
    | Except.error e => Except.error e
    | Except.ok fs2 => Except.ok ⟨fs2, []⟩
  else if action = "auto-filter".toList then
    match updatePluginCfg fs ctx.paths KPATCH_FILTER_OPT trueStr with
    | Except.error e => Except.error e
    | Except.ok fs2 => Except.ok ⟨fs2, []⟩
  else if action = "no-filter".toList then
    match updatePluginCfg fs ctx.paths KPATCH_FILTER_OPT falseStr with
    | Except.error e => Except.error e
    | Except.ok fs2 => Except.ok ⟨fs2, []⟩
  else if action = "status".toList then
    match readConf fs (getPluginCfgFile fs ctx.paths) with
    | Except.error e => Except.error e
    | Except.ok conf =>
      match statusBool conf KPATCH_UPDATE_OPT with
      | none => Except.error CmdErr.uncaught
      | some _ =>
        match statusBool conf KPATCH_FILTER_OPT with
        | none => Except.error CmdErr.uncaught
        | some _ =>
          match listMissingKppPkgs ctx with
          | none => Except.error CmdErr.uncaught
          | some _ => Except.ok ⟨fs, []⟩
  else if action = "install".toList then
    match installAll ctx.strict (installedKernels ctx) with
    | none => Except.error CmdErr.uncaught
    | some reqs => Except.ok ⟨fs, reqs⟩
  else Except.error CmdErr.invalidArgument

/-- `_read_conf` only ever raises the config parse error. -/
theorem readConf_error (fs : FS) (cf : Option (List Char)) (e : CmdErr)
    (h : readConf fs cf = Except.error e) : e = CmdErr.configError := by
  unfold readConf at h
  split at h
  · exact absurd h (by simp)
  · split at h
    · exact (Except.error.inj h).symm
    · exact absurd h (by simp)
    · exact absurd h (by simp)

/-- `_update_plugin_cfg` only ever raises the config parse error. -/
theorem updatePluginCfg_error (fs : FS) (paths : List (List Char)) (opt val : List Char)
    (e : CmdErr) (h : updatePluginCfg fs paths opt val = Except.error e) :
    e = CmdErr.configError := by
  unfold updatePluginCfg at h
  split at h
  · exact absurd h (by simp)
  · split at h
    next e' he =>
      exact (readConf_error _ _ _ he) ▸ (Except.error.inj h).symm
    · exact absurd h (by simp)
    · exact absurd h (by simp)

/-- `run` on action `auto-update`. -/
theorem runCmd_on_auto_update (ctx : CmdCtx) (fs : FS) :
    runCmd "auto-update".toList ctx fs =
      match installAll ctx.strict (installedKernels ctx) with
      | none => Except.error CmdErr.uncaught
      | some reqs =>
        match updatePluginCfg fs ctx.paths KPATCH_UPDATE_OPT trueStr with
        | Except.error e => Except.error e
        | Except.ok fs2 => Except.ok ⟨fs2, reqs⟩ := by
  unfold runCmd
  rw [if_pos (Or.inl rfl)]

/-- `run` on action `auto`. -/
theorem runCmd_on_auto (ctx : CmdCtx) (fs : FS) :
    runCmd "auto".toList ctx fs =
      match installAll ctx.strict (installedKernels ctx) with
      | none => Except.error CmdErr.uncaught
      | some reqs =>
        match updatePluginCfg fs ctx.paths KPATCH_UPDATE_OPT trueStr with
        | Except.error e => Except.error e
        | Except.ok fs2 => Except.ok ⟨fs2, reqs⟩ := by
  unfold runCmd
  rw [if_pos (Or.inr rfl)]

/-- `run` on action `manual-update`. -/
theorem runCmd_on_manual_update (ctx : CmdCtx) (fs : FS) :
    runCmd "manual-update".toList ctx fs =
      match updatePluginCfg fs ctx.paths KPATCH_UPDATE_OPT falseStr with
      | Except.error e => Except.error e
      | Except.ok fs2 => Except.ok ⟨fs2, []⟩ := by
  have hc1 : ¬ ("manual-update".toList = "auto-update".toList ∨
      "manual-update".toList = "auto".toList) := by decide
  unfold runCmd
  rw [if_neg hc1, if_pos (Or.inl rfl)]

/-- `run` on action `manual`. -/
theorem runCmd_on_manual (ctx : CmdCtx) (fs : FS) :
    runCmd "manual".toList ctx fs =
      match updatePluginCfg fs ctx.paths KPATCH_UPDATE_OPT falseStr with
      | Except.error e => Except.error e
      | Except.ok fs2 => Except.ok ⟨fs2, []⟩ := by
  have hc1 : ¬ ("manual".toList = "auto-update".toList ∨
      "manual".toList = "auto".toList) := by decide
  unfold runCmd
  rw [if_neg hc1, if_pos (Or.inr rfl)]

/-- `run` on action `auto-filter`. -/
theorem runCmd_on_auto_filter (ctx : CmdCtx) (fs : FS) :
    runCmd "auto-filter".toList ctx fs =
      match updatePluginCfg fs ctx.paths KPATCH_FILTER_OPT trueStr with
      | Except.error e => Except.error e
      | Except.ok fs2 => Except.ok ⟨fs2, []⟩ := by
  have hc1 : ¬ ("auto-filter".toList = "auto-update".toList ∨
      "auto-filter".toList = "auto".toList) := by decide
  have hc2 : ¬ ("auto-filter".toList = "manual-update".toList ∨
      "auto-filter".toList = "manual".toList) := by decide
  unfold runCmd
  rw [if_neg hc1, if_neg hc2, if_pos rfl]

/-- `run` on action `no-filter`. -/
theorem runCmd_on_no_filter (ctx : CmdCtx) (fs : FS) :
    runCmd "no-filter".toList ctx fs =
      match updatePluginCfg fs ctx.paths KPATCH_FILTER_OPT falseStr with
      | Except.error e => Except.error e
      | Except.ok fs2 => Except.ok ⟨fs2, []⟩ := by
  have hc1 : ¬ ("no-filter".toList = "auto-update".toList ∨
      "no-filter".toList = "auto".toList) := by decide
  have hc2 : ¬ ("no-filter".toList = "manual-update".toList ∨
      "no-filter".toList = "manual".toList) := by decide
  have hc3 : ¬ "no-filter".toList = "auto-filter".toList := by decide
  unfold runCmd
  rw [if_neg hc1, if_neg hc2, if_neg hc3, if_pos rfl]

/-- `run` on action `status`. -/
theorem runCmd_on_status (ctx : CmdCtx) (fs : FS) :
    runCmd "status".toList ctx fs =
      match readConf fs (getPluginCfgFile fs ctx.paths) with
      | Except.error e => Except.error e
      | Except.ok conf =>
        match statusBool conf KPATCH_UPDATE_OPT with
        | none => Except.error CmdErr.uncaught
        | some _ =>
          match statusBool conf KPATCH_FILTER_OPT with
          | none => Except.error CmdErr.uncaught
          | some _ =>
            match listMissingKppPkgs ctx with
            | none => Except.error CmdErr.uncaught
            | some _ => Except.ok ⟨fs, []⟩ := by
  have hc1 : ¬ ("status".toList = "auto-update".toList ∨
      "status".toList = "auto".toList) := by decide
  have hc2 : ¬ ("status".toList = "manual-update".toList ∨
      "status".toList = "manual".toList) := by decide
  have hc3 : ¬ "status".toList = "auto-filter".toList := by decide
  have hc4 : ¬ "status".toList = "no-filter".toList := by decide
  unfold runCmd
  rw [if_neg hc1, if_neg hc2, if_neg hc3, if_neg hc4, if_pos rfl]

/-- `run` on action `install`. -/
theorem runCmd_on_install (ctx : CmdCtx) (fs : FS) :
    runCmd "install".toList ctx fs =
      match installAll ctx.strict (installedKernels ctx) with
      | none => Except.error CmdErr.uncaught
      | some reqs => Except.ok ⟨fs, reqs⟩ := by
  have hc1 : ¬ ("install".toList = "auto-update".toList ∨
      "install".toList = "auto".toList) := by decide
  have hc2 : ¬ ("install".toList = "manual-update".toList ∨
      "install".toList = "manual".toList) := by decide
  have hc3 : ¬ "install".toList = "auto-filter".toList := by decide
  have hc4 : ¬ "install".toList = "no-filter".toList := by decide
  have hc5 : ¬ "install".toList = "status".toList := by decide
  unfold runCmd
  rw [if_neg hc1, if_neg hc2, if_neg hc3, if_neg hc4, if_neg hc5, if_pos rfl]

/-- Claim C7: `KpatchCmd.run` raises the fatal InvalidArgument error
exactly for actions outside the eight recognized ones; recognized
actions never produce that error (though they may fail otherwise). -/
theorem run_invalid_argument_iff (a : List Char) (ctx : CmdCtx) (fs : FS) :
    if a ∈ recognizedActions then runCmd a ctx fs ≠ Except.error CmdErr.invalidArgument
    else runCmd a ctx fs = Except.error CmdErr.invalidArgument := by
  by_cases h : a ∈ recognizedActions
  · rw [if_pos h]
    simp only [recognizedActions, List.mem_cons, List.not_mem_nil, or_false] at h
    rcases h with rfl | rfl | rfl | rfl | rfl | rfl | rfl | rfl
    · rw [runCmd_on_auto_update]
      cases installAll ctx.strict (installedKernels ctx) with
      | none => exact fun hcon => CmdErr.noConfusion (Except.error.inj hcon)
      | some reqs =>
        cases hu : updatePluginCfg fs ctx.paths KPATCH_UPDATE_OPT trueStr with
        | error e =>
          intro hcon
          exact CmdErr.noConfusion
            ((updatePluginCfg_error _ _ _ _ _ hu).symm.trans (Except.error.inj hcon))
        | ok fs2 => exact fun hcon => Except.noConfusion hcon
    · rw [runCmd_on_manual_update]
      cases hu : updatePluginCfg fs ctx.paths KPATCH_UPDATE_OPT falseStr with
      | error e =>
        intro hcon
        exact CmdErr.noConfusion
          ((updatePluginCfg_error _ _ _ _ _ hu).symm.trans (Except.error.inj hcon))
      | ok fs2 => exact fun hcon => Except.noConfusion hcon
    · rw [runCmd_on_auto_filter]
      cases hu : updatePluginCfg fs ctx.paths KPATCH_FILTER_OPT trueStr with
      | error e =>
        intro hcon
        exact CmdErr.noConfusion
          ((updatePluginCfg_error _ _ _ _ _ hu).symm.trans (Except.error.inj hcon))
      | ok fs2 => exact fun hcon => Except.noConfusion hcon
    · rw [runCmd_on_no_filter]
      cases hu : updatePluginCfg fs ctx.paths KPATCH_FILTER_OPT falseStr with
      | error e =>
        intro hcon
        exact CmdErr.noConfusion
          ((updatePluginCfg_error _ _ _ _ _ hu).symm.trans (Except.error.inj hcon))
      | ok fs2 => exact fun hcon => Except.noConfusion hcon
    · rw [runCmd_on_install]
      cases installAll ctx.strict (installedKernels ctx) with
      | none => exact fun hcon => CmdErr.noConfusion (Except.error.inj hcon)
      | some reqs => exact fun hcon => Except.noConfusion hcon
    · rw [runCmd_on_status]
      cases hr : readConf fs (getPluginCfgFile fs ctx.paths) with
      | error e =>
        intro hcon
        exact CmdErr.noConfusion
          ((readConf_error _ _ _ hr).symm.trans (Except.error.inj hcon))
      | ok conf =>
        show (match statusBool conf KPATCH_UPDATE_OPT with
          | none => Except.error CmdErr.uncaught
          | some _ =>
            match statusBool conf KPATCH_FILTER_OPT with
            | none => Except.error CmdErr.uncaught
            | some _ =>
              match listMissingKppPkgs ctx with
              | none => Except.error CmdErr.uncaught
              | some _ => Except.ok (⟨fs, []⟩ : CmdResult)) ≠
          Except.error CmdErr.invalidArgument
        cases statusBool conf KPATCH_UPDATE_OPT with
        | none => exact fun hcon => CmdErr.noConfusion (Except.error.inj hcon)
        | some b1 =>
          cases statusBool conf KPATCH_FILTER_OPT with
          | none => exact fun hcon => CmdErr.noConfusion (Except.error.inj hcon)
          | some b2 =>
            cases listMissingKppPkgs ctx with
            | none => exact fun hcon => CmdErr.noConfusion (Except.error.inj hcon)
            | some ms => exact fun hcon => Except.noConfusion hcon
    · rw [runCmd_on_auto]
      cases installAll ctx.strict (installedKernels ctx) with
      | none => exact fun hcon => CmdErr.noConfusion (Except.error.inj hcon)
      | some reqs =>
        cases hu : updatePluginCfg fs ctx.paths KPATCH_UPDATE_OPT trueStr with
        | error e =>
          intro hcon
          exact CmdErr.noConfusion
            ((updatePluginCfg_error _ _ _ _ _ hu).symm.trans (Except.error.inj hcon))
        | ok fs2 => exact fun hcon => Except.noConfusion hcon
    · rw [runCmd_on_manual]
      cases hu : updatePluginCfg fs ctx.paths KPATCH_UPDATE_OPT falseStr with
      | error e =>
        intro hcon
        exact CmdErr.noConfusion
          ((updatePluginCfg_error _ _ _ _ _ hu).symm.trans (Except.error.inj hcon))
      | ok fs2 => exact fun hcon => Except.noConfusion hcon
  · rw [if_neg h]
    simp only [recognizedActions, List.mem_cons, List.not_mem_nil, or_false, not_or] at h
    obtain ⟨h1, h2, h3, h4, h5, h6, h7, h8⟩ := h
    unfold runCmd
    rw [if_neg (fun hc => hc.elim h1 h7), if_neg (fun hc => hc.elim h2 h8),
      if_neg h3, if_neg h4, if_neg h6, if_neg h5]

/-- Context for the C4 counterexample: one search path, empty sack,
non-strict, identity `latest`. -/
def ctx4 : CmdCtx := ⟨["/etc/dnf/plugins".toList], [], false, fun l => l⟩

/-- Counterexample to C4 (Scenario B): running `kpatch auto` with no
prior configuration file succeeds but creates no file at all —
`_update_plugin_cfg` skips the write when `_get_plugin_cfg_file`
returned `None` — so afterwards no configuration file with
`main`/`autoupdate=True` exists. -/
theorem kpatch_auto_no_cfg_counterexample :
    runCmd "auto".toList ctx4 [] = Except.ok ⟨[], []⟩ ∧
    ¬ ∃ f c, fsLookup ([] : FS) f = some (FileData.parsed c) ∧
      getOpt c mainSec KPATCH_UPDATE_OPT = some trueStr := by
  constructor
  · rfl
  · rintro ⟨f, c, hf, -⟩
    simp [fsLookup] at hf

/-- Claim C4 amended: `kpatch auto` writes `autoupdate=True` into the
`main` section of the located configuration file when one already
exists; when no configuration file exists on the search path the write
is skipped with a warning and the file system is unchanged — the store
is not created implicitly. -/
theorem kpatch_auto_cfg_amended (ctx : CmdCtx) (fs : FS) (st : CmdResult)
    (h : runCmd "auto".toList ctx fs = Except.ok st) :
    (getPluginCfgFile fs ctx.paths = none → st.fs = fs) ∧
    (∀ f, getPluginCfgFile fs ctx.paths = some f →
      ∃ c2, fsLookup st.fs f = some (FileData.parsed c2) ∧
        getOpt c2 mainSec KPATCH_UPDATE_OPT = some trueStr) := by
  rw [runCmd_on_auto] at h
  split at h
  · exact absurd h (by simp)
  next reqs hi =>
    split at h
    · exact absurd h (by simp)
    next fs2 hu =>
      have hst : (⟨fs2, reqs⟩ : CmdResult) = st := Except.ok.inj h
      subst hst
      constructor
      · intro hnone
        have hfs := Except.ok.inj
          ((updatePluginCfg_none fs ctx.paths KPATCH_UPDATE_OPT trueStr hnone).symm.trans hu)
        show fs2 = fs
        exact hfs.symm
      · intro f hf
        cases hdat : fsLookup fs f with
        | none =>
          have hex : (fsLookup fs f).isSome = true := by
            have := List.find?_some hf
            simpa using this
          rw [hdat] at hex
          simp at hex
        | some d =>
          cases d with
          | malformed =>
            rw [updatePluginCfg_located fs ctx.paths KPATCH_UPDATE_OPT trueStr f hf,
              readConf_lookup, hdat] at hu
            have hcon : (Except.error CmdErr.configError : Except CmdErr FS) =
              Except.ok fs2 := hu
            exact Except.noConfusion hcon
          | parsed c0 =>
            obtain ⟨c2, hl, hv, -⟩ :=
              (updatePluginCfg_frame_aux fs ctx.paths KPATCH_UPDATE_OPT trueStr fs2 hu).2
                f c0 hf hdat
            exact ⟨c2, hl, hv⟩

/-- Witness for the amended C4: with one existing config file
(`fs10`), `kpatch auto` rewrites it so `autoupdate = True`. -/
theorem kpatch_auto_cfg_amended_witness :
    ∃ c2, fsLookup fs10after f10 = some (FileData.parsed c2) ∧
      getOpt c2 mainSec KPATCH_UPDATE_OPT = some trueStr :=
  (kpatch_auto_cfg_amended ⟨["/etc/dnf/plugins".toList], [], false, fun l => l⟩ fs10
    ⟨fs10after, []⟩ (by rfl)).2 f10 (by decide)

/-! ## Plugin initialization (`KpatchPlugin.config`, src/kpatch.py:261-271) -/

/-- Outcome of the host's `Plugin.read_config` during passive plugin
initialization.  Modelled from the spec: the host-side reader (dnf's
`Plugin.read_config`, not part of this repository) either produces a
parsed config or fails on a missing/unparseable file, and per the
spec's propagation policy those passive failures are downgraded to
warnings, the plugin keeping its `__init__` defaults (both flags
false). -/
inductive ReadOutcome where
  | missing : ReadOutcome
  | malformed : ReadOutcome
  | parsed : Config → ReadOutcome

/-- `KpatchPlugin.config`: starting from the `__init__` defaults
`(false, false)`, assign `_autoupdate` from its flag expression, then
`_autofilter`, inside one `try`; a `getboolean` `ValueError` (`none`)
aborts the remaining assignments with only a warning, keeping values
already assigned. -/
def pluginInitFlags : ReadOutcome → Bool × Bool
  | ReadOutcome.missing => (false, false)
  | ReadOutcome.malformed => (false, false)
  | ReadOutcome.parsed c =>
    match flagExpr c KPATCH_UPDATE_OPT with
    | none => (false, false)
    | some au =>
      match flagExpr c KPATCH_FILTER_OPT with
      | none => (au, false)
      | some af => (au, af)

/-- A config with a valid `autoupdate` and a malformed `autofilter`. -/
def c8 : Config :=
  [(mainSec, [(KPATCH_UPDATE_OPT, "true".toList), (KPATCH_FILTER_OPT, "banana".toList)])]

/-- Counterexample to C8: on `c8` initialization hits a `getboolean`
parse failure (non-fatal, as claimed) but proceeds with
`autoUpdate = true` — not with both flags false. -/
theorem plugin_init_flags_counterexample :
    flagExpr c8 KPATCH_FILTER_OPT = none ∧
    pluginInitFlags (ReadOutcome.parsed c8) = (true, false) ∧
    pluginInitFlags (ReadOutcome.parsed c8) ≠ (false, false) :=
  ⟨rfl, rfl, by decide⟩

/-- Claim C8 amended: passive-init read failures are non-fatal with
false as the default — a missing or unparseable file leaves both flags
false; a boolean-value parse failure leaves the failing flag and every
later flag false, while a flag already read keeps its parsed value —
whereas an unparseable file makes the explicit command paths
(`status` via `_read_conf`, flag toggles via `_update_plugin_cfg`)
raise a fatal error. -/
theorem plugin_init_vs_command_errors :
    pluginInitFlags ReadOutcome.missing = (false, false) ∧
    pluginInitFlags ReadOutcome.malformed = (false, false) ∧
    (∀ c, flagExpr c KPATCH_UPDATE_OPT = none →
      pluginInitFlags (ReadOutcome.parsed c) = (false, false)) ∧
    (∀ c au, flagExpr c KPATCH_UPDATE_OPT = some au →
      flagExpr c KPATCH_FILTER_OPT = none →
      pluginInitFlags (ReadOutcome.parsed c) = (au, false)) ∧
    (∀ fs f, fsLookup fs f = some FileData.malformed →
      readConf fs (some f) = Except.error CmdErr.configError) ∧
    (∀ fs paths opt val f, getPluginCfgFile fs paths = some f →
      fsLookup fs f = some FileData.malformed →
      updatePluginCfg fs paths opt val = Except.error CmdErr.configError) := by
  refine ⟨rfl, rfl, ?_, ?_, ?_, ?_⟩
  · intro c hc
    simp [pluginInitFlags, hc]
  · intro c au h1 h2
    simp [pluginInitFlags, h1, h2]
  · intro fs f hf
    rw [readConf_lookup, hf]
  · intro fs paths opt val f hloc hf
    rw [updatePluginCfg_located fs paths opt val f hloc, readConf_lookup, hf]

/-- A config whose `autoupdate` value itself fails to parse. -/
def c8b : Config := [(mainSec, [(KPATCH_UPDATE_OPT, "banana".toList)])]

/-- Witness for the amended C8: a failing first flag leaves both flags
false at init, and an unparseable file is fatal for `_read_conf`. -/
theorem plugin_init_vs_command_errors_witness :
    pluginInitFlags (ReadOutcome.parsed c8b) = (false, false) ∧
    readConf [(f10, FileData.malformed)] (some f10) = Except.error CmdErr.configError :=
  ⟨plugin_init_vs_command_errors.2.2.1 c8b (by rfl),
   plugin_init_vs_command_errors.2.2.2.2.1 [(f10, FileData.malformed)] f10 (by rfl)⟩

/-! ## The `sack` hook (src/kpatch.py:281-321) -/

/-- `kernel_pkg_names` (src/kpatch.py:248-249). -/
def kernelPkgNames : List (List Char) :=
  ["kernel".toList, "kernel-core".toList, "kernel-modules".toList,
   "kernel-modules-core".toList, "kernel-modules-extra".toList]

/-- `kpatch_requirement` (src/kpatch.py:250). -/
def kpatchRequirement : List (List Char) :=
  ["kernel".toList, "kernel-uname-r".toList]

/-- hawkey's `pkg.evr` for epoch-0 packages: `version-release`. -/
def Pkg.evr (p : Pkg) : List Char := p.version ++ '-' :: p.release

/-- The requires-entry test of the `sack` loop (src/kpatch.py:304-307):
split the reldep string on single spaces, skip entries with fewer than
three tokens, accept when the first token is one of the kernel
requirement names. -/
def isKernelReq (r : List Char) : Bool :=
  if (r.splitOn ' ').length < 3 then false
  else
    match r.splitOn ' ' with
    | [] => false
    | t :: _ => decide (t ∈ kpatchRequirement)

/-- The `sack` loop body for one kpatch-patch package
(src/kpatch.py:302-318): take the first kernel requirement (the source
breaks after it), take the first kernel candidate providing it
(assuming all such share one evr), and keep every kernel candidate
with that evr. -/
def sackKeepFor (kernelsQuery : List Pkg) (kpatchPkg : Pkg) : List Pkg :=
  match kpatchPkg.requires.find? isKernelReq with
  | none => []
  | some req =>
    match (kernelsQuery.filter (fun k => decide (req ∈ k.provides))).head? with
    | none => []
    | some k0 => kernelsQuery.filter (fun k2 => decide (k2.evr = k0.evr))

/-- The `sack` hook as a function of the `autofilter` flag and the sack
contents (queried with `IGNORE_EXCLUDES`): the kernel candidates are
the available packages with a kernel-family name, the keep set
accumulates over all `kpatch-patch-*` packages, and everything not
kept is excluded.  Returns the newly added exclusions and whether the
user-facing notice is printed; with the flag off the hook returns
immediately. -/
def sackRun (autofilter : Bool) (sack : List Pkg) : List Pkg × Bool :=
  if !autofilter then ([], false)
  else
    let kernelsQuery :=
      (sack.filter (fun p => decide (p.name ∈ kernelPkgNames))).filter
        (fun p => !p.installed)
    let keep :=
      (sack.filter (fun p => "kpatch-patch-".toList.isPrefixOf p.name)).foldl
        (fun acc kp => acc ++ sackKeepFor kernelsQuery kp) []
    (kernelsQuery.filter (fun k => decide (¬ k ∈ keep)), true)

/-- Claim C5: with `autofilter` false, the `sack` hook is a pure
pass-through — it adds no exclusions and prints no notice, leaving the
presented package set completely unchanged. -/
theorem sack_nofilter_passthrough (sack : List Pkg) :
    sackRun false sack = ([], false) := rfl

end Kpatch
